import Mathlib

/-!
Verification of the sentiment-service core (`app/inference.py`, `app/main.py`)
against its natural-language specification.

Modelling conventions:
* Python floats are modelled as exact rationals (`ℚ`); all arithmetic in the
  normalizer is `+`, `-`, `/2`, `max` and comparisons, so the rational model
  mirrors the float code branch-for-branch.
* Python strings are modelled as Lean `String`; `str.upper()`,
  `str.startswith`, `str.split("_")[-1]` and `int(...)` are re-implemented on
  the underlying character lists (ASCII-faithful, which covers every label
  vocabulary the service handles).
* A raw classifier output dict is `Raw` (label plus optional score field);
  `raw_scores.get("score", 1.0)` becomes `Option.getD · 1`.
* Fallible Python paths (indexing an empty pipeline output, calling `.get`
  on an empty list element of a batched output) are modelled with `Option`.
-/

namespace SentimentService

/-- Python `str.upper()` restricted to the ASCII case mapping
(`Char.toUpper` uppercases exactly the ASCII lowercase letters). -/
def py_upper (s : String) : String :=
  ⟨s.data.map Char.toUpper⟩

/-- Python `s.startswith(p)`: `p` is a prefix of `s`. -/
def py_startswith (s p : String) : Bool :=
  p.data.isPrefixOf s.data

/-- Python `s.split("_")[-1]`: the suffix after the last underscore
(the whole string when it has no underscore). -/
def last_segment (s : String) : String :=
  ⟨(s.data.reverse.takeWhile (fun c => c ≠ '_')).reverse⟩

/-- Value of a nonempty all-digit character list, `none` otherwise. -/
def digits_val (cs : List Char) : Option Nat :=
  cs.foldl
    (fun acc c =>
      match acc with
      | none => none
      | some n => if c.isDigit then some (10 * n + (c.toNat - 48)) else none)
    (some 0)

/-- Python `int(s)` on a string with no interior underscores: strip
whitespace, optional sign, then a nonempty run of decimal digits;
`none` models the `ValueError` raised on anything else. -/
def py_int (s : String) : Option Int :=
  let cs := ((s.data.dropWhile Char.isWhitespace).reverse.dropWhile
      Char.isWhitespace).reverse
  match cs with
  | [] => none
  | '-' :: rest =>
    if rest = [] then none else (digits_val rest).map (fun n => -(n : Int))
  | '+' :: rest =>
    if rest = [] then none else (digits_val rest).map (fun n => (n : Int))
  | _ => (digits_val cs).map (fun n => (n : Int))

/-- The canonical three-class probability distribution
(`{"negative": _, "neutral": _, "positive": _}` in insertion order). -/
structure Dist where
  negative : ℚ
  neutral : ℚ
  positive : ℚ
deriving DecidableEq, Repr

/-- A raw classifier output dict: `label` (via `sent.get("label", "")`,
so always a string) and the optional `"score"` entry. -/
structure Raw where
  label : String
  score : Option ℚ
deriving DecidableEq, Repr

/-- An entity span as assembled in `run_single` / `run_batch`
(`end` is a Lean keyword, stored as `endPos`). -/
structure Entity where
  text : String
  label : String
  start : Nat
  endPos : Nat
deriving DecidableEq, Repr

/-- One output record of `run_single` / `run_batch` (before the service
layer attaches the `model` field). -/
structure Record where
  label : String
  score : ℚ
  probs : Dist
  entities : List Entity
deriving DecidableEq, Repr

/-- `softmax_to_three_from_label_and_score` from `app/inference.py`:
the fallback that produces a one-hot-like distribution from label+score. -/
def softmax_to_three_from_label_and_score (raw_label : String) (score : ℚ) :
    Dist :=
  let up := py_upper raw_label
  if up = "NEGATIVE" ∨ up = "LABEL_0" then
    ⟨score, 0, 1 - score⟩
  else if up = "POSITIVE" ∨ up = "LABEL_1" ∨ up = "LABEL_2" then
    ⟨1 - score, 0, score⟩
  else
    ⟨0, 1, 0⟩

/-- The star count computed in the star branch of
`normalize_to_three_classes`: parse the trailing index after the last
underscore, `stars = idx + 1` for `0 ≤ idx ≤ 4`, defaulting to `3` when
parsing fails (`except`) or the index is out of range. -/
def star_count (label : String) : Int :=
  match py_int (last_segment label) with
  | some idx => if 0 ≤ idx ∧ idx ≤ 4 then idx + 1 else 3
  | none => 3

/-- The one-hot collapse of a star count used by the star branch. -/
def star_onehot (stars : Int) : Dist :=
  if stars ≤ 2 then ⟨1, 0, 0⟩
  else if stars = 3 then ⟨0, 1, 0⟩
  else ⟨0, 0, 1⟩

/-- `normalize_to_three_classes` from `app/inference.py`.  The second
argument models the `raw_scores` dict through its `"score"` entry
(`raw_scores.get("score", 1.0)` is `raw_score.getD 1`). -/
def normalize_to_three_classes (raw_label : String) (raw_score : Option ℚ) :
    Dist :=
  let label := py_upper raw_label
  if label = "NEGATIVE" ∨ label = "POSITIVE" ∨ label = "NEUTRAL" then
    let score_val := raw_score.getD 1
    if label = "NEGATIVE" then
      ⟨score_val, 0, 1 - score_val⟩
    else if label = "POSITIVE" then
      ⟨1 - score_val, 0, score_val⟩
    else
      -- NEUTRAL: split remaining mass across ends equally
      let remaining := max 0 (1 - score_val)
      ⟨remaining / 2, score_val, remaining / 2⟩
  else if label = "LABEL_0" ∨ label = "LABEL_1" ∨ label = "LABEL_2" then
    -- CardiffNLP: LABEL_0=negative, LABEL_1=neutral, LABEL_2=positive
    let score_val := raw_score.getD 1
    if label = "LABEL_0" then
      ⟨score_val, 0, 1 - score_val⟩
    else if label = "LABEL_1" then
      let remaining := max 0 (1 - score_val)
      ⟨remaining / 2, score_val, remaining / 2⟩
    else
      ⟨1 - score_val, 0, score_val⟩
  else if py_startswith label "★" ∨ py_startswith label "STAR" ∨
      py_startswith label "LABEL_" then
    -- Star-based models: map stars to a one-hot distribution
    star_onehot (star_count label)
  else
    softmax_to_three_from_label_and_score raw_label (raw_score.getD 1)

/-- `score_from_probs` from `app/inference.py`. -/
def score_from_probs (probs : Dist) : ℚ :=
  probs.positive - probs.negative

/-- Python `max(probs, key=probs.get)` over the insertion order
`negative, neutral, positive`: scan left to right keeping the current
best, replacing it only on a strictly greater value (first max wins). -/
def argmax_label (d : Dist) : String :=
  if d.positive > (if d.neutral > d.negative then d.neutral else d.negative)
  then "positive"
  else if d.neutral > d.negative then "neutral"
  else "negative"

/-- The per-item record assembly shared by `run_single` and the loop body
of `run_batch`: normalize, take the arg-max label, derive the score, and
attach the entity spans verbatim. -/
def assemble (sent : Raw) (ents : List Entity) : Record :=
  let probs := normalize_to_three_classes sent.label sent.score
  { label := argmax_label probs
    score := score_from_probs probs
    probs := probs
    entities := ents }

/-- `run_single` from `app/inference.py`.  The sentiment pipeline is an
opaque function returning the raw output list (`sent_pipeline(text)`);
`[0]` on an empty output is the error case (`none`).  The spaCy call and
the entity-dict construction are modelled by `ner` returning the spans. -/
def run_single (pipe : String → List Raw) (ner : String → List Entity)
    (text : String) : Option Record :=
  match pipe text with
  | [] => none
  | sent :: _ => some (assemble sent (ner text))

/-- One element of a batched pipeline output: either a single raw dict or
a per-item wrapping list. -/
inductive SentOut where
  | one (r : Raw)
  | many (rs : List Raw)
deriving DecidableEq, Repr

/-- The unwrapping step at the top of the `run_batch` loop body:
`if isinstance(sent, list) and len(sent) > 0: sent = sent[0]`.  An empty
wrapping list is left as a list, on which `.get` then raises — `none`. -/
def unwrap_sent : SentOut → Option Raw
  | .one r => some r
  | .many (r :: _) => some r
  | .many [] => none

/-- `run_batch` from `app/inference.py`, with the batched pipeline output
`sent_outputs = sent_pipeline(texts)` taken as an argument.  The loop
runs over `zip(texts, sent_outputs)` (truncating to the shorter list);
a raised exception anywhere aborts the whole call (`none`). -/
def run_batch (ner : String → List Entity) :
    List String → List SentOut → Option (List Record)
  | [], _ => some []
  | _ :: _, [] => some []
  | text :: texts, sent :: sents =>
    match unwrap_sent sent with
    | none => none
    | some r =>
      match run_batch ner texts sents with
      | none => none
      | some rest => some (assemble r (ner text) :: rest)

/-- The score rescaling in the `analyze` endpoint of `app/main.py`:
`sentiment_score = (sentiment_result["score"] + 1) / 2`. -/
def analyze_score01 (score : ℚ) : ℚ :=
  (score + 1) / 2

/-- The framing if-chain of the `analyze` endpoint building the base
rationale string from the rescaled score, sentiment label and entity
count. -/
def rationale_text (score01 : ℚ) (label : String) (entity_count : Nat) :
    String :=
  if score01 > 7/10 then
    "Positive sentiment (" ++ label ++ ") with " ++ toString entity_count ++
      " entities identified"
  else if score01 < 3/10 then
    "Negative sentiment (" ++ label ++ ") with " ++ toString entity_count ++
      " entities identified"
  else
    "Neutral sentiment (" ++ label ++ ") with " ++ toString entity_count ++
      " entities identified"

/-- The full rationale of the `analyze` endpoint: the framing text, and
when entities exist, the texts of the first three entities appended
(`sentiment_result["entities"][:3]`, joined with `", "`). -/
def analyze_rationale (score01 : ℚ) (label : String) (ents : List Entity) :
    String :=
  let base := rationale_text score01 label ents.length
  if 0 < ents.length then
    base ++ ". Key entities: " ++
      String.intercalate ", " ((ents.take 3).map Entity.text)
  else
    base

/-- `int(os.environ.get("MAX_BATCH", "64"))` with the `ValueError`
handler defaulting to `64`; the argument is the environment variable's
value when set. -/
def parse_max_batch (env : Option String) : Int :=
  match py_int (env.getD "64") with
  | some n => n
  | none => 64

/-- Failure categories of the service layer (`HTTPException` statuses in
`app/main.py`): 503 models-not-loaded, 400 bad input, 413 over the batch
limit. -/
inductive ApiError where
  | notReady
  | badInput
  | tooLarge
deriving DecidableEq, Repr

/-- The `/batch/score` handler of `app/main.py`: readiness check, empty
check (`if not ... texts`), batch-size check (`len(texts) > max_batch`),
then `run_batch` (whose own failure is the outer `none`). -/
def batch_score (ready : Bool) (maxEnv : Option String)
    (pipe : List String → List SentOut) (ner : String → List Entity)
    (texts : List String) : Option (Except ApiError (List Record)) :=
  if !ready then some (.error .notReady)
  else if texts.isEmpty then some (.error .badInput)
  else if (texts.length : Int) > parse_max_batch maxEnv then
    some (.error .tooLarge)
  else
    (run_batch ner texts (pipe texts)).map Except.ok

/-! ### Specification-side predicates -/

/-- A valid `ThreeClassDistribution` in the sense of the spec: each field
in `[0,1]` and the three fields summing to `1` (exactly, in the rational
model; the float code matches up to floating-point tolerance). -/
def dist_ok (d : Dist) : Prop :=
  0 ≤ d.negative ∧ d.negative ≤ 1 ∧
  0 ≤ d.neutral ∧ d.neutral ≤ 1 ∧
  0 ≤ d.positive ∧ d.positive ≤ 1 ∧
  d.negative + d.neutral + d.positive = 1

/-- `l` is the arg-max key of `d` under the first-max-wins tie-break in
the iteration order `negative`, `neutral`, `positive`: `negative` wins
any tie, `neutral` beats `negative` strictly and is not strictly beaten
by `positive`, `positive` must strictly beat both. -/
def argmax_spec (d : Dist) (l : String) : Prop :=
  (l = "negative" ∧ d.neutral ≤ d.negative ∧ d.positive ≤ d.negative) ∨
  (l = "neutral" ∧ d.negative < d.neutral ∧ d.positive ≤ d.neutral) ∨
  (l = "positive" ∧ d.negative < d.positive ∧ d.neutral < d.positive)

/-! ### Helper lemmas: branch selection in the normalizer -/

lemma argmax_label_spec (d : Dist) : argmax_spec d (argmax_label d) := by
  unfold argmax_spec argmax_label
  split_ifs with h1 h2 h3
  · right; right; exact ⟨rfl, by linarith, by linarith⟩
  · right; left; exact ⟨rfl, by linarith, by linarith⟩
  · right; right; exact ⟨rfl, by linarith, by linarith⟩
  · left; exact ⟨rfl, by linarith, by linarith⟩

lemma assemble_argmax (sent : Raw) (ents : List Entity) :
    argmax_spec (assemble sent ents).probs (assemble sent ents).label := by
  simpa [assemble] using
    argmax_label_spec (normalize_to_three_classes sent.label sent.score)

lemma normalize_of_upper_negative (label : String) (s : Option ℚ)
    (h : py_upper label = "NEGATIVE") :
    normalize_to_three_classes label s = ⟨s.getD 1, 0, 1 - s.getD 1⟩ := by
  simp [normalize_to_three_classes, h]

lemma normalize_of_upper_positive (label : String) (s : Option ℚ)
    (h : py_upper label = "POSITIVE") :
    normalize_to_three_classes label s = ⟨1 - s.getD 1, 0, s.getD 1⟩ := by
  simp [normalize_to_three_classes, h]

lemma normalize_of_upper_neutral (label : String) (s : Option ℚ)
    (h : py_upper label = "NEUTRAL") :
    normalize_to_three_classes label s =
      ⟨max 0 (1 - s.getD 1) / 2, s.getD 1, max 0 (1 - s.getD 1) / 2⟩ := by
  simp [normalize_to_three_classes, h]

lemma normalize_of_upper_label0 (label : String) (s : Option ℚ)
    (h : py_upper label = "LABEL_0") :
    normalize_to_three_classes label s = ⟨s.getD 1, 0, 1 - s.getD 1⟩ := by
  simp [normalize_to_three_classes, h]

lemma normalize_of_upper_label1 (label : String) (s : Option ℚ)
    (h : py_upper label = "LABEL_1") :
    normalize_to_three_classes label s =
      ⟨max 0 (1 - s.getD 1) / 2, s.getD 1, max 0 (1 - s.getD 1) / 2⟩ := by
  simp [normalize_to_three_classes, h]

lemma normalize_of_upper_label2 (label : String) (s : Option ℚ)
    (h : py_upper label = "LABEL_2") :
    normalize_to_three_classes label s = ⟨1 - s.getD 1, 0, s.getD 1⟩ := by
  simp [normalize_to_three_classes, h]

lemma normalize_of_star (label : String) (s : Option ℚ)
    (h1 : py_upper label ≠ "NEGATIVE") (h2 : py_upper label ≠ "POSITIVE")
    (h3 : py_upper label ≠ "NEUTRAL") (h4 : py_upper label ≠ "LABEL_0")
    (h5 : py_upper label ≠ "LABEL_1") (h6 : py_upper label ≠ "LABEL_2")
    (hstar : py_startswith (py_upper label) "★" = true ∨
      py_startswith (py_upper label) "STAR" = true ∨
      py_startswith (py_upper label) "LABEL_" = true) :
    normalize_to_three_classes label s =
      star_onehot (star_count (py_upper label)) := by
  rcases hstar with h | h | h <;>
    simp [normalize_to_three_classes, h1, h2, h3, h4, h5, h6, h]

lemma softmax_default_neutral (label : String) (s : ℚ)
    (h1 : py_upper label ≠ "NEGATIVE") (h2 : py_upper label ≠ "POSITIVE")
    (h4 : py_upper label ≠ "LABEL_0") (h5 : py_upper label ≠ "LABEL_1")
    (h6 : py_upper label ≠ "LABEL_2") :
    softmax_to_three_from_label_and_score label s = ⟨0, 1, 0⟩ := by
  simp [softmax_to_three_from_label_and_score, h1, h2, h4, h5, h6]

lemma normalize_of_fallback (label : String) (s : Option ℚ)
    (h1 : py_upper label ≠ "NEGATIVE") (h2 : py_upper label ≠ "POSITIVE")
    (h3 : py_upper label ≠ "NEUTRAL") (h4 : py_upper label ≠ "LABEL_0")
    (h5 : py_upper label ≠ "LABEL_1") (h6 : py_upper label ≠ "LABEL_2")
    (h7 : py_startswith (py_upper label) "★" = false)
    (h8 : py_startswith (py_upper label) "STAR" = false)
    (h9 : py_startswith (py_upper label) "LABEL_" = false) :
    normalize_to_three_classes label s = ⟨0, 1, 0⟩ := by
  rw [show normalize_to_three_classes label s =
      softmax_to_three_from_label_and_score label (s.getD 1) by
    simp [normalize_to_three_classes, h1, h2, h3, h4, h5, h6, h7, h8, h9]]
  exact softmax_default_neutral label _ h1 h2 h4 h5 h6

/-! ### Claims -/

/-- Claim C1: for every raw label string and every score in `[0,1]`, the
distribution returned by `normalize_to_three_classes` has each of its
three fields (`negative`, `neutral`, `positive`) in `[0,1]` and the three
fields sum to `1` (exactly, in the rational model). -/
theorem normalize_dist_bounds_and_sum (label : String) (s : ℚ)
    (hs0 : 0 ≤ s) (hs1 : s ≤ 1) :
    dist_ok (normalize_to_three_classes label (some s)) := by
  unfold dist_ok
  simp only [normalize_to_three_classes, softmax_to_three_from_label_and_score,
    star_onehot, Option.getD_some]
  split_ifs
  all_goals dsimp only
  all_goals
    have hm : max (0 : ℚ) (1 - s) = 1 - s := max_eq_right (by linarith)
    exact ⟨by linarith, by linarith, by linarith, by linarith, by linarith,
      by linarith, by linarith⟩

/-- Claim C1, witness: the theorem applied at label `"NEUTRAL"`, score
`1/2`, evaluated to the concrete distribution `(1/4, 1/2, 1/4)`. -/
theorem normalize_dist_bounds_and_sum_witness :
    dist_ok ⟨1/4, 1/2, 1/4⟩ := by
  have h := normalize_dist_bounds_and_sum "NEUTRAL" (1/2)
    (by norm_num) (by norm_num)
  rwa [normalize_of_upper_neutral "NEUTRAL" (some (1/2)) (by decide),
    show (⟨max 0 (1 - (some (1/2) : Option ℚ).getD 1) / 2,
        (some (1/2) : Option ℚ).getD 1,
        max 0 (1 - (some (1/2) : Option ℚ).getD 1) / 2⟩ : Dist) =
      ⟨1/4, 1/2, 1/4⟩ by norm_num] at h

/-- Claim C2, counterexample: the claim states the `NEUTRAL` branch keeps
the remaining mass `1 - s` unclamped even for `s > 1`, predicting
`negative = (1 - 2)/2 = -1/2` at score `2`; the code's
`max(0.0, 1.0 - score_val)` clamps it to `0`. -/
theorem normalize_no_clamping_counterexample :
    (normalize_to_three_classes "NEUTRAL" (some 2)).negative ≠
      (1 - 2 : ℚ) / 2 := by
  rw [normalize_of_upper_neutral "NEUTRAL" (some 2) (by decide)]
  norm_num

/-- Claim C2 (amended): the `NEGATIVE`/`POSITIVE`/`LABEL_0`/`LABEL_2`
branches apply no clamping — their `1 - score` arithmetic is preserved
exactly, also for scores outside `[0,1]` — but the `NEUTRAL` and
`LABEL_1` branches clamp the remaining mass at zero via
`max(0, 1 - score)` before splitting it evenly, so for `score > 1` the
`negative` and `positive` fields are `0`, not `(1 - score)/2`. -/
theorem normalize_clamping_policy (s : ℚ) :
    normalize_to_three_classes "NEGATIVE" (some s) = ⟨s, 0, 1 - s⟩ ∧
    normalize_to_three_classes "POSITIVE" (some s) = ⟨1 - s, 0, s⟩ ∧
    normalize_to_three_classes "LABEL_0" (some s) = ⟨s, 0, 1 - s⟩ ∧
    normalize_to_three_classes "LABEL_2" (some s) = ⟨1 - s, 0, s⟩ ∧
    normalize_to_three_classes "NEUTRAL" (some s) =
      ⟨max 0 (1 - s) / 2, s, max 0 (1 - s) / 2⟩ ∧
    normalize_to_three_classes "LABEL_1" (some s) =
      ⟨max 0 (1 - s) / 2, s, max 0 (1 - s) / 2⟩ ∧
    (1 < s →
      (normalize_to_three_classes "NEUTRAL" (some s)).negative = 0 ∧
      (normalize_to_three_classes "NEUTRAL" (some s)).positive = 0) := by
  refine ⟨normalize_of_upper_negative _ _ (by decide),
    normalize_of_upper_positive _ _ (by decide),
    normalize_of_upper_label0 _ _ (by decide),
    normalize_of_upper_label2 _ _ (by decide),
    normalize_of_upper_neutral _ _ (by decide),
    normalize_of_upper_label1 _ _ (by decide),
    fun hs => ?_⟩
  rw [normalize_of_upper_neutral "NEUTRAL" (some s) (by decide)]
  have hm : max (0 : ℚ) (1 - s) = 0 := max_eq_left (by linarith)
  constructor <;> simp [hm]

/-- Claim C2 (amended), witness: at score `2` the `NEUTRAL` branch
produces `negative = 0` (clamped), not `-1/2`. -/
theorem normalize_clamping_policy_witness :
    (normalize_to_three_classes "NEUTRAL" (some 2)).negative = 0 :=
  ((normalize_clamping_policy 2).2.2.2.2.2.2 (by norm_num)).1

/-- Claim C3: labels `LABEL_0`, `LABEL_1`, `LABEL_2` (case-insensitive)
are consumed by the CardiffNLP indexed-ternary branch — mapped as
`LABEL_0` = negative, `LABEL_1` = neutral with the remaining mass split
evenly, `LABEL_2` = positive — before the star/indexed branch can see
them; input `("LABEL_1", score 3/5)` yields probs `(1/5, 3/5, 1/5)`,
label `"neutral"`, derived score `0`. -/
theorem cardiff_branch_before_star (label : String) (s : ℚ) :
    (py_upper label = "LABEL_0" →
      normalize_to_three_classes label (some s) = ⟨s, 0, 1 - s⟩) ∧
    (py_upper label = "LABEL_1" →
      normalize_to_three_classes label (some s) =
        ⟨max 0 (1 - s) / 2, s, max 0 (1 - s) / 2⟩) ∧
    (py_upper label = "LABEL_2" →
      normalize_to_three_classes label (some s) = ⟨1 - s, 0, s⟩) ∧
    assemble ⟨"LABEL_1", some (3/5)⟩ [] =
      ⟨"neutral", 0, ⟨1/5, 3/5, 1/5⟩, []⟩ := by
  refine ⟨fun h => normalize_of_upper_label0 _ _ h,
    fun h => normalize_of_upper_label1 _ _ h,
    fun h => normalize_of_upper_label2 _ _ h, ?_⟩
  have hp : normalize_to_three_classes "LABEL_1" (some (3/5)) =
      ⟨1/5, 3/5, 1/5⟩ := by
    rw [normalize_of_upper_label1 "LABEL_1" (some (3/5)) (by decide)]
    norm_num
  simp [assemble, hp, argmax_label, score_from_probs]
  norm_num

/-- Claim C3, witness: the CardiffNLP branch applied at the
case-insensitive label `"Label_1"` with score `3/5`. -/
theorem cardiff_branch_before_star_witness :
    normalize_to_three_classes "Label_1" (some (3/5)) =
      ⟨max 0 (1 - 3/5) / 2, 3/5, max 0 (1 - 3/5) / 2⟩ :=
  (cardiff_branch_before_star "Label_1" (3/5)).2.1 (by decide)

/-- Claim C4: for every label matching the star scheme (begins with the
star glyph, the prefix `STAR`, or `LABEL_` while not consumed by the
earlier ternary branches), the normalizer parses the trailing integer
index `i` after the last underscore, sets `stars = i + 1` for
`0 ≤ i ≤ 4` and `stars = 3` on a parse failure or out-of-range index,
and returns the one-hot collapse (`stars ≤ 2` → negative, `stars = 3` →
neutral, `stars ≥ 4` → positive); the derived score is therefore exactly
one of `-1`, `0`, `1`, and `("LABEL_3", score 4/5)` yields probs
`(0, 0, 1)`, label `"positive"`, score `1`. -/
theorem star_branch (label : String) (s : ℚ)
    (h1 : py_upper label ≠ "NEGATIVE") (h2 : py_upper label ≠ "POSITIVE")
    (h3 : py_upper label ≠ "NEUTRAL") (h4 : py_upper label ≠ "LABEL_0")
    (h5 : py_upper label ≠ "LABEL_1") (h6 : py_upper label ≠ "LABEL_2")
    (hstar : py_startswith (py_upper label) "★" = true ∨
      py_startswith (py_upper label) "STAR" = true ∨
      py_startswith (py_upper label) "LABEL_" = true) :
    normalize_to_three_classes label (some s) =
      star_onehot (star_count (py_upper label)) ∧
    (∀ i : Int, py_int (last_segment (py_upper label)) = some i →
      ((0 ≤ i ∧ i ≤ 4) → star_count (py_upper label) = i + 1) ∧
      (¬ (0 ≤ i ∧ i ≤ 4) → star_count (py_upper label) = 3)) ∧
    (py_int (last_segment (py_upper label)) = none →
      star_count (py_upper label) = 3) ∧
    (score_from_probs (normalize_to_three_classes label (some s)) = -1 ∨
     score_from_probs (normalize_to_three_classes label (some s)) = 0 ∨
     score_from_probs (normalize_to_three_classes label (some s)) = 1) ∧
    assemble ⟨"LABEL_3", some (4/5)⟩ [] = ⟨"positive", 1, ⟨0, 0, 1⟩, []⟩ := by
  have hn := normalize_of_star label (some s) h1 h2 h3 h4 h5 h6 hstar
  refine ⟨hn, ?_, ?_, ?_, ?_⟩
  · intro i hi
    constructor <;> intro hrange <;> simp [star_count, hi, hrange]
  · intro hi
    simp [star_count, hi]
  · rw [hn]
    unfold star_onehot
    split_ifs <;> norm_num [score_from_probs]
  · have hp : normalize_to_three_classes "LABEL_3" (some (4/5)) =
        ⟨0, 0, 1⟩ := by
      rw [normalize_of_star "LABEL_3" (some (4/5)) (by decide) (by decide)
        (by decide) (by decide) (by decide) (by decide)
        (Or.inr (Or.inr (by decide)))]
      rw [show star_count (py_upper "LABEL_3") = 4 from by decide]
      simp [star_onehot]
    simp [assemble, hp, argmax_label, score_from_probs]

/-- Claim C4, witness: the theorem applied at label `"LABEL_3"`, score
`4/5`, whose star count is `4` and whose derived score is `1`. -/
theorem star_branch_witness :
    normalize_to_three_classes "LABEL_3" (some (4/5)) =
      star_onehot (star_count (py_upper "LABEL_3")) :=
  (star_branch "LABEL_3" (4/5) (by decide) (by decide) (by decide)
    (by decide) (by decide) (by decide) (Or.inr (Or.inr (by decide)))).1

/-- Claim C5: in every record produced by `run_single` and `run_batch`,
the `label` field is the arg-max key of the `probs` distribution with
ties broken in the fixed order negative, neutral, positive (the first
maximal key wins). -/
theorem record_label_is_argmax :
    (∀ (pipe : String → List Raw) (ner : String → List Entity)
        (text : String) (r : Record),
      run_single pipe ner text = some r → argmax_spec r.probs r.label) ∧
    (∀ (ner : String → List Entity) (texts : List String)
        (souts : List SentOut) (out : List Record) (r : Record),
      run_batch ner texts souts = some out → r ∈ out →
        argmax_spec r.probs r.label) := by
  constructor
  · intro pipe ner text r h
    unfold run_single at h
    cases hp : pipe text with
    | nil => rw [hp] at h; exact absurd h (by simp)
    | cons sent rest =>
      rw [hp] at h
      have hr : assemble sent (ner text) = r := by
        simpa using h
      rw [← hr]
      exact assemble_argmax sent (ner text)
  · intro ner texts souts out r hout hmem
    induction texts generalizing souts out with
    | nil =>
      simp [run_batch] at hout
      subst hout
      simp at hmem
    | cons t ts ih =>
      cases souts with
      | nil =>
        simp [run_batch] at hout
        subst hout
        simp at hmem
      | cons so ss =>
        unfold run_batch at hout
        cases hu : unwrap_sent so with
        | none => rw [hu] at hout; exact absurd hout (by simp)
        | some rr =>
          rw [hu] at hout
          cases hb : run_batch ner ts ss with
          | none => rw [hb] at hout; exact absurd hout (by simp)
          | some rest =>
            rw [hb] at hout
            have hcons : assemble rr (ner t) :: rest = out := by
              simpa using hout
            rw [← hcons] at hmem
            rcases List.mem_cons.mp hmem with hr | hr
            · rw [hr]; exact assemble_argmax rr (ner t)
            · exact ih ss rest hb hr

/-- Claim C5, witness: the `run_single` half applied to a pipeline
returning `("NEGATIVE", score 9/10)`, whose record has probs
`(9/10, 0, 1/10)` and label `"negative"`. -/
theorem record_label_is_argmax_witness :
    argmax_spec ⟨9/10, 0, 1/10⟩ "negative" := by
  have he : assemble ⟨"NEGATIVE", some (9/10)⟩ [] =
      ⟨"negative", -(4/5), ⟨9/10, 0, 1/10⟩, []⟩ := by
    have hp : normalize_to_three_classes "NEGATIVE" (some (9/10)) =
        ⟨9/10, 0, 1/10⟩ := by
      rw [normalize_of_upper_negative "NEGATIVE" (some (9/10)) (by decide)]
      norm_num
    simp [assemble, hp, argmax_label, score_from_probs]
    norm_num
  have h := record_label_is_argmax.1
    (fun _ => [⟨"NEGATIVE", some (9/10)⟩]) (fun _ => []) "x"
    ⟨"negative", -(4/5), ⟨9/10, 0, 1/10⟩, []⟩
    (by simp [run_single, he])
  simpa using h

/-- Claim C6: `score_from_probs` is a total pure function returning
`probs.positive - probs.negative` for every input distribution; and the
pipeline on input `("NEGATIVE", score 9/10)` yields probs
`(9/10, 0, 1/10)`, label `"negative"`, and score `-4/5`. -/
theorem score_from_probs_spec :
    (∀ d : Dist, score_from_probs d = d.positive - d.negative) ∧
    run_single (fun _ => [⟨"NEGATIVE", some (9/10)⟩]) (fun _ => []) "t" =
      some ⟨"negative", -(4/5), ⟨9/10, 0, 1/10⟩, []⟩ := by
  refine ⟨fun d => rfl, ?_⟩
  have hp : normalize_to_three_classes "NEGATIVE" (some (9/10)) =
      ⟨9/10, 0, 1/10⟩ := by
    rw [normalize_of_upper_negative "NEGATIVE" (some (9/10)) (by decide)]
    norm_num
  have he : assemble ⟨"NEGATIVE", some (9/10)⟩ [] =
      ⟨"negative", -(4/5), ⟨9/10, 0, 1/10⟩, []⟩ := by
    simp [assemble, hp, argmax_label, score_from_probs]
    norm_num
  simp [run_single, he]

/-- Claim C7: when the texts and the raw batched sentiment outputs have
the same length, `run_batch` (when it returns) yields one record per
input text, in input order, the `i`-th record assembled from `texts[i]`
and the `i`-th sentiment output, with a non-empty list output unwrapped
to its first element before normalization. -/
theorem run_batch_pairing (ner : String → List Entity)
    (texts : List String) (souts : List SentOut) (out : List Record)
    (hlen : texts.length = souts.length)
    (hout : run_batch ner texts souts = some out) :
    out.length = texts.length ∧
    ∀ (i : Nat) (t : String) (so : SentOut),
      texts[i]? = some t → souts[i]? = some so →
      ∃ r : Raw, unwrap_sent so = some r ∧
        out[i]? = some (assemble r (ner t)) := by
  induction texts generalizing souts out with
  | nil =>
    simp [run_batch] at hout
    subst hout
    simp
  | cons t ts ih =>
    cases souts with
    | nil => simp at hlen
    | cons so ss =>
      unfold run_batch at hout
      cases hu : unwrap_sent so with
      | none => rw [hu] at hout; exact absurd hout (by simp)
      | some rr =>
        rw [hu] at hout
        cases hb : run_batch ner ts ss with
        | none => rw [hb] at hout; exact absurd hout (by simp)
        | some rest =>
          rw [hb] at hout
          have hcons : assemble rr (ner t) :: rest = out := by
            simpa using hout
          have hlen' : ts.length = ss.length := by
            simpa using hlen
          obtain ⟨ihlen, ihidx⟩ := ih ss rest hlen' hb
          subst hcons
          constructor
          · simpa using ihlen
          · intro i tt soo hti hsi
            cases i with
            | zero =>
              simp at hti hsi
              subst hti; subst hsi
              exact ⟨rr, hu, by simp⟩
            | succ n =>
              simp at hti hsi
              simpa using ihidx n tt soo hti hsi

/-- Claim C7, witness: the theorem applied to two texts paired with one
plain output and one wrapped output, both normalizing to the neutral
fallback record. -/
theorem run_batch_pairing_witness :
    ([⟨"neutral", 0, ⟨0, 1, 0⟩, []⟩, ⟨"neutral", 0, ⟨0, 1, 0⟩, []⟩] :
        List Record).length = (["a", "b"] : List String).length ∧
    ∃ r : Raw, unwrap_sent (SentOut.many [⟨"FOO", none⟩]) = some r ∧
      ([⟨"neutral", 0, ⟨0, 1, 0⟩, []⟩, ⟨"neutral", 0, ⟨0, 1, 0⟩, []⟩] :
          List Record)[1]? =
        some (assemble r ((fun _ => ([] : List Entity)) "b")) := by
  have hf : normalize_to_three_classes "FOO" (none : Option ℚ) =
      ⟨0, 1, 0⟩ :=
    normalize_of_fallback "FOO" none (by decide) (by decide) (by decide)
      (by decide) (by decide) (by decide) (by decide) (by decide) (by decide)
  have ha : assemble ⟨"FOO", none⟩ [] = ⟨"neutral", 0, ⟨0, 1, 0⟩, []⟩ := by
    simp [assemble, hf, argmax_label, score_from_probs]
  have h := run_batch_pairing (fun _ => []) ["a", "b"]
    [SentOut.one ⟨"FOO", none⟩, SentOut.many [⟨"FOO", none⟩]]
    [⟨"neutral", 0, ⟨0, 1, 0⟩, []⟩, ⟨"neutral", 0, ⟨0, 1, 0⟩, []⟩]
    rfl
    (by simp [run_batch, unwrap_sent, ha])
  exact ⟨h.1, h.2 1 "b" (SentOut.many [⟨"FOO", none⟩]) rfl rfl⟩

/-- Claim C8: the analyze endpoint rescales the signed score `s` to
`(s + 1)/2`, frames the rationale positively exactly when the rescaled
score exceeds `7/10`, negatively exactly when it is below `3/10`, and
neutrally otherwise — always stating the sentiment label and entity
count — and when entities exist appends the texts of exactly the first
`min 3 (number of entities)` entities in order; a signed score of `3/5`
rescales to `4/5`, which is positive framing. -/
theorem analyze_rationale_spec (s : ℚ) (label : String)
    (ents : List Entity) :
    analyze_score01 s = (s + 1) / 2 ∧
    (analyze_score01 s > 7/10 →
      rationale_text (analyze_score01 s) label ents.length =
        "Positive sentiment (" ++ label ++ ") with " ++
          toString ents.length ++ " entities identified") ∧
    (analyze_score01 s < 3/10 →
      rationale_text (analyze_score01 s) label ents.length =
        "Negative sentiment (" ++ label ++ ") with " ++
          toString ents.length ++ " entities identified") ∧
    (3/10 ≤ analyze_score01 s → analyze_score01 s ≤ 7/10 →
      rationale_text (analyze_score01 s) label ents.length =
        "Neutral sentiment (" ++ label ++ ") with " ++
          toString ents.length ++ " entities identified") ∧
    (ents ≠ [] →
      analyze_rationale (analyze_score01 s) label ents =
        rationale_text (analyze_score01 s) label ents.length ++
          ". Key entities: " ++
          String.intercalate ", "
            ((ents.take (min 3 ents.length)).map Entity.text)) ∧
    (ents = [] →
      analyze_rationale (analyze_score01 s) label ents =
        rationale_text (analyze_score01 s) label ents.length) ∧
    analyze_score01 (3/5) = 4/5 ∧ (7 : ℚ)/10 < analyze_score01 (3/5) := by
  refine ⟨rfl, ?_, ?_, ?_, ?_, ?_, by norm_num [analyze_score01],
    by norm_num [analyze_score01]⟩
  · intro h
    rw [rationale_text, if_pos h]
  · intro h
    have h7 : ¬ analyze_score01 s > 7/10 := by linarith
    rw [rationale_text, if_neg h7, if_pos h]
  · intro h3 h7
    have h7' : ¬ analyze_score01 s > 7/10 := by linarith
    have h3' : ¬ analyze_score01 s < 3/10 := by linarith
    rw [rationale_text, if_neg h7', if_neg h3']
  · intro h
    have hpos : 0 < ents.length := List.length_pos.mpr h
    have htake : ents.take (min 3 ents.length) = ents.take 3 := by
      rw [List.take_eq_take]
      omega
    rw [analyze_rationale, htake]
    simp [hpos]
  · intro h
    subst h
    simp [analyze_rationale]

/-- Claim C8, witness: at signed score `3/5` (rescaled to `4/5`), label
`"positive"` and one entity, the rationale is the positive framing with
the single entity text appended. -/
theorem analyze_rationale_spec_witness :
    analyze_rationale (analyze_score01 (3/5)) "positive"
        [⟨"Acme", "ORG", 0, 4⟩] =
      "Positive sentiment (positive) with 1 entities identified" ++
        ". Key entities: " ++ "Acme" := by
  have h := analyze_rationale_spec (3/5) "positive" [⟨"Acme", "ORG", 0, 4⟩]
  have hfull := h.2.2.2.2.1 (by simp)
  have hpos := h.2.1 (by norm_num [analyze_score01])
  rw [hfull, hpos]
  rfl

/-- Claim C9: the batch-scoring endpoint rejects an empty batch as bad
input, rejects a batch strictly longer than the configured maximum
(default `64` when the environment variable is absent) as too large —
producing no records in either case — and accepts any non-empty batch of
length at most the maximum (in particular of length exactly the
maximum), proceeding to `run_batch`. -/
theorem batch_score_limits (maxEnv : Option String)
    (pipe : List String → List SentOut) (ner : String → List Entity)
    (texts : List String) :
    parse_max_batch none = 64 ∧
    (texts = [] →
      batch_score true maxEnv pipe ner texts =
        some (.error ApiError.badInput)) ∧
    (texts ≠ [] → parse_max_batch maxEnv < (texts.length : Int) →
      batch_score true maxEnv pipe ner texts =
        some (.error ApiError.tooLarge)) ∧
    (texts ≠ [] → (texts.length : Int) ≤ parse_max_batch maxEnv →
      batch_score true maxEnv pipe ner texts =
        (run_batch ner texts (pipe texts)).map Except.ok) := by
  refine ⟨rfl, ?_, ?_, ?_⟩
  · intro h
    subst h
    simp [batch_score]
  · intro hne hgt
    have hemp : texts.isEmpty = false := by
      simpa [List.isEmpty_iff] using hne
    simp [batch_score, hemp, hgt]
  · intro hne hle
    have hemp : texts.isEmpty = false := by
      simpa [List.isEmpty_iff] using hne
    have hgt : ¬ ((texts.length : Int) > parse_max_batch maxEnv) := by
      exact not_lt.mpr hle
    simp [batch_score, hemp, hgt]

/-- Claim C9, witness: a batch of exactly 64 texts with the variable
unset (maximum defaults to 64) is accepted and handed to `run_batch`. -/
theorem batch_score_limits_witness :
    batch_score true none (fun ts => ts.map fun _ => SentOut.one ⟨"FOO", none⟩)
        (fun _ => []) (List.replicate 64 "t") =
      (run_batch (fun _ => []) (List.replicate 64 "t")
        ((List.replicate 64 "t").map fun _ => SentOut.one ⟨"FOO", none⟩)).map
        Except.ok :=
  (batch_score_limits none
      (fun ts => ts.map fun _ => SentOut.one ⟨"FOO", none⟩)
      (fun _ => []) (List.replicate 64 "t")).2.2.2
    (by simp) (by decide)

/-- Claim C10: when `normalize_to_three_classes` reaches its final
fallback — a label that (case-insensitively) is none of
`NEGATIVE`/`POSITIVE`/`NEUTRAL`/`LABEL_0`/`LABEL_1`/`LABEL_2` and does
not start with the star glyph, `STAR` or `LABEL_` — the result is
exactly `(0, 1, 0)`: the non-neutral branches of
`softmax_to_three_from_label_and_score` are unreachable from the
normalizer, because every label they match is consumed earlier. -/
theorem fallback_always_neutral (label : String) (sc : Option ℚ)
    (h1 : py_upper label ≠ "NEGATIVE") (h2 : py_upper label ≠ "POSITIVE")
    (h3 : py_upper label ≠ "NEUTRAL") (h4 : py_upper label ≠ "LABEL_0")
    (h5 : py_upper label ≠ "LABEL_1") (h6 : py_upper label ≠ "LABEL_2")
    (h7 : py_startswith (py_upper label) "★" = false)
    (h8 : py_startswith (py_upper label) "STAR" = false)
    (h9 : py_startswith (py_upper label) "LABEL_" = false) :
    normalize_to_three_classes label sc = ⟨0, 1, 0⟩ ∧
    softmax_to_three_from_label_and_score label (sc.getD 1) = ⟨0, 1, 0⟩ :=
  ⟨normalize_of_fallback label sc h1 h2 h3 h4 h5 h6 h7 h8 h9,
    softmax_default_neutral label _ h1 h2 h4 h5 h6⟩

/-- Claim C10, witness: the unrecognized label `"FOO"` with score `1/2`
falls through to the fully neutral distribution. -/
theorem fallback_always_neutral_witness :
    normalize_to_three_classes "FOO" (some (1/2)) = ⟨0, 1, 0⟩ :=
  (fallback_always_neutral "FOO" (some (1/2)) (by decide) (by decide)
    (by decide) (by decide) (by decide) (by decide) (by decide) (by decide)
    (by decide)).1

end SentimentService
